/-
Verification of the csv-file-comparator repository (Japhethxtech/csv-file-comparator).

Shallow embedding of the core logic:
  - src/csv_comparator/analyzer.py  (CharacterAnalyzer)
  - src/csv_comparator/comparator.py (CSVComparator)

Modelling conventions:
  - A Python character is a Unicode code point, modelled as a Nat.
  - A Python string is a list of code points (PyStr := List Nat).
  - A possibly-absent character (Python uses the empty string for absence)
    is an Option Nat, with none standing for ''.
  - Python's platform-dependent str.isprintable test is taken as an
    explicit function parameter (printable : Nat -> Bool); the Unicode
    database fields (unicodedata.name / category) and the encoding probe of
    _analyze_encoding are auxiliary diagnostics derived from the platform
    Unicode database and codecs, used by no claim, and are omitted from the
    embedded records.
  - str.isspace is embedded concretely (pyIsSpace below) as the exact set of
    code points for which Python's str.isspace returns True.
-/
import Mathlib

/-- A Python string, as its list of Unicode code points. -/
abbrev PyStr := List Nat

/-- Python str.isspace for a single code point: Unicode categories
Zs, Zl, Zp together with the bidirectional classes WS, B and S.
This is the exact set of code points Python's str.isspace accepts. -/
def pyIsSpace (c : Nat) : Bool :=
  decide ((9 ≤ c ∧ c ≤ 13) ∨ (28 ≤ c ∧ c ≤ 31) ∨ c = 32 ∨ c = 133 ∨
    c = 160 ∨ c = 5760 ∨ (8192 ≤ c ∧ c ≤ 8202) ∨ c = 8232 ∨ c = 8233 ∨
    c = 8239 ∨ c = 8287 ∨ c = 12288)

/-- The static curated lookup table self.special_chars of
CharacterAnalyzer.__init__ (analyzer.py lines 14-51): code point to
short human-readable name, in source order. -/
def special_chars : List (Nat × String) :=
  [ (0x0020, "普通空格"),
    (0x00A0, "不间断空格"),
    (0x2009, "细空格"),
    (0x200A, "发丝空格"),
    (0x200B, "零宽空格"),
    (0x200C, "零宽非连字符"),
    (0x200D, "零宽连字符"),
    (0x2028, "行分隔符"),
    (0x2029, "段分隔符"),
    (0x202F, "窄不间断空格"),
    (0x205F, "中等数学空格"),
    (0x3000, "中文空格"),
    (0x0009, "制表符"),
    (0x000A, "换行符"),
    (0x000D, "回车符"),
    (0x000C, "换页符"),
    (0x000B, "垂直制表符"),
    (0x2010, "连字符"),
    (0x2011, "不间断连字符"),
    (0x2012, "数字短横线"),
    (0x2013, "短破折号"),
    (0x2014, "长破折号"),
    (0x2015, "水平线"),
    (0x2018, "左单引号"),
    (0x2019, "右单引号"),
    (0x201A, "下单引号"),
    (0x201B, "上单引号"),
    (0x201C, "左双引号"),
    (0x201D, "右双引号"),
    (0x201E, "下双引号"),
    (0x201F, "上双引号") ]

/-- Membership of a code point in the curated table (Python: char in self.special_chars). -/
def inSpecialChars (c : Nat) : Bool :=
  (special_chars.lookup c).isSome

/-- The fields of the dict returned by CharacterAnalyzer.get_char_info
(analyzer.py lines 53-87) that are derived from the character itself.
The platform-Unicode-database fields (unicode_name, category, is_control)
and the repr/hex formattings are omitted; is_printable comes from the
printable parameter standing for str.isprintable. -/
structure CharInfo where
  char : Nat
  name : String
  is_printable : Bool
  is_space : Bool
  is_invisible : Bool
deriving DecidableEq

/-- CharacterAnalyzer.get_char_info on a nonempty single character
(the empty-string input, which yields an empty dict, is handled by the
callers passing Option values). -/
def get_char_info (printable : Nat → Bool) (c : Nat) : CharInfo :=
  { char := c
    name := (special_chars.lookup c).getD ""
    is_printable := printable c
    is_space := pyIsSpace c
    is_invisible := !printable c || inSpecialChars c }

/-- The six difference kinds returned by CharacterAnalyzer._classify_difference. -/
inductive DiffType where
  | insertion
  | deletion
  | whitespace_substitution
  | whitespace_difference
  | unicode_difference
  | character_substitution
deriving DecidableEq

/-- CharacterAnalyzer._classify_difference (analyzer.py lines 120-133):
each argument is a possibly-absent character (none models the empty
string Python uses when an index is out of range). -/
def classify_difference (char1 char2 : Option Nat) : DiffType :=
  match char1 with
  | none => DiffType.insertion
  | some c1 =>
    match char2 with
    | none => DiffType.deletion
    | some c2 =>
      if pyIsSpace c1 && pyIsSpace c2 then DiffType.whitespace_substitution
      else if pyIsSpace c1 || pyIsSpace c2 then DiffType.whitespace_difference
      else if c1 > 127 || c2 > 127 then DiffType.unicode_difference
      else DiffType.character_substitution

/-- One entry of the difference list built by
CharacterAnalyzer.find_string_differences (analyzer.py lines 108-115). -/
structure CharDiff where
  position : Nat
  char1 : Option Nat
  char2 : Option Nat
  char1_info : Option CharInfo
  char2_info : Option CharInfo
  type : DiffType
deriving DecidableEq

/-- The loop body of find_string_differences at index i: take each
character if the index is in range (getElem?, matching str[i] if
i < len else ''), and record a difference exactly when they differ. -/
def diffAt (printable : Nat → Bool) (str1 str2 : PyStr) (i : Nat) : Option CharDiff :=
  let char1 : Option Nat := str1[i]?
  let char2 : Option Nat := str2[i]?
  if char1 ≠ char2 then
    some { position := i
           char1 := char1
           char2 := char2
           char1_info := char1.map (get_char_info printable)
           char2_info := char2.map (get_char_info printable)
           type := classify_difference char1 char2 }
  else none

/-- CharacterAnalyzer.find_string_differences (analyzer.py lines 89-118):
iterate i over range(max(len(str1), len(str2))) and append one difference
record at every index where the possibly-absent characters differ. -/
def find_string_differences (printable : Nat → Bool) (str1 str2 : PyStr) :
    List CharDiff :=
  (List.range (max (List.length str1) (List.length str2))).filterMap
    (diffAt printable str1 str2)

/-- The count-by-kind dict diff_types built in analyze_difference
(analyzer.py lines 161-166): an insertion-ordered association list,
incremented in place for an existing key, appended for a new key. -/
def bumpType (m : List (DiffType × Nat)) (k : DiffType) : List (DiffType × Nat) :=
  if (m.lookup k).isSome then
    m.map (fun p => if p.1 = k then (p.1, p.2 + 1) else p)
  else m ++ [(k, 1)]

/-- The special-character scan CharacterAnalyzer._find_special_chars
(analyzer.py lines 179-188): every position whose character is in the
curated table or non-printable, with its info. -/
def find_special_chars (printable : Nat → Bool) (text : PyStr) :
    List (Nat × CharInfo) :=
  (text.enum.filter (fun p => inSpecialChars p.2 || !printable p.2)).map
    (fun p => (p.1, get_char_info printable p.2))

/-- The analysis dict of CharacterAnalyzer.analyze_difference
(analyzer.py lines 135-177); the encoding probe fields are omitted
(auxiliary platform-codec diagnostics, see header). -/
structure Analysis where
  length_diff : Int
  are_equal : Bool
  str1_length : Nat
  str2_length : Nat
  differences : List CharDiff
  diff_count : Nat
  diff_positions : List Nat
  diff_types : List (DiffType × Nat)
  str1_special_chars : List (Nat × CharInfo)
  str2_special_chars : List (Nat × CharInfo)
deriving DecidableEq

/-- CharacterAnalyzer.analyze_difference (analyzer.py lines 135-177). -/
def analyze_difference (printable : Nat → Bool) (str1 str2 : PyStr) : Analysis :=
  let differences := find_string_differences printable str1 str2
  { length_diff := (List.length str2 : Int) - (List.length str1 : Int)
    are_equal := decide (str1 = str2)
    str1_length := List.length str1
    str2_length := List.length str2
    differences := differences
    diff_count := differences.length
    diff_positions := differences.map (fun d => d.position)
    diff_types := differences.foldl (fun m d => bumpType m d.type) []
    str1_special_chars := find_special_chars printable str1
    str2_special_chars := find_special_chars printable str2 }

/-
Comparator embedding (src/csv_comparator/comparator.py).

A pandas DataFrame of all-string cells is modelled as a Frame: an ordered
list of column names together with rows, each row an association list from
column name to cell value (well-formed rows carry exactly the frame's
columns, in order, as pandas does). The str.lower case folding used when
ignore_case is set comes from the platform Unicode database and is taken
as an explicit function parameter (lower : Nat -> Bool).
-/

/-- A loaded all-string DataFrame: column names in order, and rows as
association lists from column name to cell value. -/
structure Frame where
  cols : List String
  rows : List (List (String × PyStr))
deriving DecidableEq

/-- A frame is well formed when every row carries exactly the frame's
columns, in order (as a pandas DataFrame does). -/
def Frame.WF (df : Frame) : Prop :=
  ∀ r ∈ df.rows, r.map Prod.fst = df.cols

/-- Cell access by row index and column name (df.iloc[row] at a named
column); absent rows or columns read as the empty string, matching the
fillna('') normalisation of load_csv. -/
def Frame.cell (df : Frame) (i : Nat) (c : String) : PyStr :=
  (df.rows[i]?.bind (fun r => r.lookup c)).getD []

/-- The union of column names set(df1.columns) | set(df2.columns) in
CSVComparator.normalize_dataframes (comparator.py line 101), as a
duplicate-free list. -/
def colUnion (c1 c2 : List String) : List String :=
  c1 ++ c2.filter (fun c => decide (c ∉ c1))

/-- sorted(all_columns): the canonical lexicographically sorted column
order of normalize_dataframes (comparator.py lines 110-112). -/
def canonCols (df1 df2 : Frame) : List String :=
  List.insertionSort (fun a b => a ≤ b) (colUnion df1.cols df2.cols)

/-- Reindexing one row to a column list: each canonical column keeps the
row's value when the column is present and reads '' when absent — the
combined effect of adding missing columns with '' (comparator.py lines
104-108) and df.reindex(columns=sorted(all_columns)) (lines 111-112). -/
def reindexRow (cols : List String) (r : List (String × PyStr)) :
    List (String × PyStr) :=
  cols.map (fun c => (c, (r.lookup c).getD []))

/-- One side of normalize_dataframes: reindex every row to the canonical
columns, then append all-empty rows up to nrows (comparator.py lines
114-123, pd.concat with empty rows then reset_index). -/
def conform (df : Frame) (cols : List String) (nrows : Nat) : Frame :=
  { cols := cols
    rows := df.rows.map (reindexRow cols) ++
      List.replicate (nrows - df.rows.length) (cols.map (fun c => (c, ([] : PyStr)))) }

/-- CSVComparator.normalize_dataframes (comparator.py lines 89-123). -/
def normalize_dataframes (df1 df2 : Frame) : Frame × Frame :=
  let cols := canonCols df1 df2
  let nrows := max df1.rows.length df2.rows.length
  (conform df1 cols nrows, conform df2 cols nrows)

/-- Python str.strip() with no argument: drop leading and trailing
whitespace (str.isspace characters). -/
def pyStrip (s : PyStr) : PyStr :=
  ((List.dropWhile pyIsSpace s).reverse.dropWhile pyIsSpace).reverse

/-- The comparator configuration (CSVComparator.__init__). -/
structure Config where
  ignore_case : Bool
  ignore_whitespace : Bool
deriving DecidableEq

/-- CSVComparator.compare_cells (comparator.py lines 140-166): strip
and/or case-fold local copies of the two values, return (True, {}) when
the preprocessed values are equal, else (False, analysis) where the
analysis runs on the preprocessed values. -/
def compare_cells (printable : Nat → Bool) (lower : Nat → Nat) (cfg : Config)
    (val1 val2 : PyStr) : Bool × Option Analysis :=
  let v1 := if cfg.ignore_whitespace then pyStrip val1 else val1
  let v2 := if cfg.ignore_whitespace then pyStrip val2 else val2
  let w1 := if cfg.ignore_case then v1.map lower else v1
  let w2 := if cfg.ignore_case then v2.map lower else v2
  if w1 = w2 then (true, none)
  else (false, some (analyze_difference printable w1 w2))

/-- CellDifference (comparator.py lines 12-23); the repr-formatted string
fields are string formattings of original/target and are omitted. -/
structure CellDifference where
  row : Nat
  col : Nat
  col_name : String
  original : PyStr
  target : PyStr
  char_diff_positions : List Nat
  unicode_analysis : Option Analysis
deriving DecidableEq

/-- ComparisonResult (comparator.py lines 25-34); the file_info metadata
(file sizes, detected encodings) is filesystem I/O and is omitted.
similarity is the exact rational value of the Python float division. -/
structure ComparisonResult where
  similarity : ℚ
  total_cells : Nat
  different_cells : Nat
  identical_cells : Nat
  differences : List CellDifference
deriving DecidableEq

/-- The inner loop body of compare_files (comparator.py lines 200-221)
for one row index and one (column index, column name) pair: emit a
CellDifference exactly when compare_cells reports a mismatch. -/
def cellDiffAt (printable : Nat → Bool) (lower : Nat → Nat) (cfg : Config)
    (g1 g2 : Frame) (row : Nat) (jc : Nat × String) : Option CellDifference :=
  let val1 := g1.cell row jc.2
  let val2 := g2.cell row jc.2
  let res := compare_cells printable lower cfg val1 val2
  if res.1 then none
  else some
    { row := row
      col := jc.1
      col_name := jc.2
      original := val1
      target := val2
      char_diff_positions := ((res.2.map Analysis.diff_positions).getD [])
      unicode_analysis := res.2 }

/-- The difference list accumulated by the row/column double loop of
compare_files (comparator.py lines 196-221), over the aligned frames. -/
def cellDiffs (printable : Nat → Bool) (lower : Nat → Nat) (cfg : Config)
    (g1 g2 : Frame) : List CellDifference :=
  (List.range g1.rows.length).flatMap (fun row =>
    g1.cols.enum.filterMap (cellDiffAt printable lower cfg g1 g2 row))

/-- CSVComparator.compare_files (comparator.py lines 168-262) after the
two frames have been loaded: normalize, walk all cells, and assemble the
ComparisonResult with similarity = identical / total, or 0 when the total
cell count is 0. -/
def compare_frames (printable : Nat → Bool) (lower : Nat → Nat) (cfg : Config)
    (df1 df2 : Frame) : ComparisonResult :=
  let gs := normalize_dataframes df1 df2
  let differences := cellDiffs printable lower cfg gs.1 gs.2
  let total_cells := gs.1.rows.length * gs.1.cols.length
  let different_cells := differences.length
  let identical_cells := total_cells - different_cells
  { similarity :=
      if total_cells > 0 then (identical_cells : ℚ) / (total_cells : ℚ) else 0
    total_cells := total_cells
    different_cells := different_cells
    identical_cells := identical_cells
    differences := differences }

/-- compare_files including the two load_csv calls: the external loader is
a parameter, a failed load (an exception in Python) is none, and the
exception propagates out of compare_files. -/
def compare_files_opt (printable : Nat → Bool) (lower : Nat → Nat) (cfg : Config)
    (load : String → Option Frame) (base_file target_file : String) :
    Option ComparisonResult := do
  let df1 ← load base_file
  let df2 ← load target_file
  pure (compare_frames printable lower cfg df1 df2)

/-- CSVComparator.batch_compare (comparator.py lines 264-290): the
insertion-ordered results dict, one entry per target in input order; a
target whose comparison raises is caught and recorded as None. -/
def batch_compare (printable : Nat → Bool) (lower : Nat → Nat) (cfg : Config)
    (load : String → Option Frame) (base_file : String)
    (target_files : List String) : List (String × Option ComparisonResult) :=
  target_files.map (fun t =>
    (t, compare_files_opt printable lower cfg load base_file t))

/-
Helper lemmas about the embedded operations.
-/

/-- Unfolding a successful diffAt: the record's fields at index i. -/
theorem diffAt_eq_some_elim {printable : Nat → Bool} {a b : PyStr} {i : Nat}
    {d : CharDiff} (h : diffAt printable a b i = some d) :
    d.position = i ∧ d.char1 = a[i]? ∧ d.char2 = b[i]? ∧
    d.char1 ≠ d.char2 ∧
    d.type = classify_difference a[i]? b[i]? := by
  simp only [diffAt] at h
  split at h
  · injection h with h
    subst h
    refine ⟨rfl, rfl, rfl, ?_, rfl⟩
    assumption
  · exact absurd h (by simp)

/-- The positions recorded by the diff loop over any index list are
exactly the indices where the two possibly-absent characters differ. -/
theorem filterMap_diffAt_positions (printable : Nat → Bool) (a b : PyStr)
    (l : List Nat) :
    (l.filterMap (diffAt printable a b)).map (fun d => d.position) =
      l.filter (fun i => decide (a[i]? ≠ b[i]?)) := by
  induction l with
  | nil => rfl
  | cons x xs ih =>
    rw [List.filterMap_cons, List.filter_cons]
    by_cases h : a[x]? = b[x]?
    · simp [diffAt, h, ih]
    · simp [diffAt, h, ih]

/-- find_string_differences records positions exactly at the unequal
indices of range(max(len1, len2)). -/
theorem find_string_differences_positions (printable : Nat → Bool) (a b : PyStr) :
    (find_string_differences printable a b).map (fun d => d.position) =
      (List.range (max (List.length a) (List.length b))).filter
        (fun i => decide (a[i]? ≠ b[i]?)) := by
  unfold find_string_differences
  exact filterMap_diffAt_positions printable a b _

/-- A string never differs from itself at any index list. -/
theorem filterMap_diffAt_self (printable : Nat → Bool) (s : PyStr) (l : List Nat) :
    l.filterMap (diffAt printable s s) = [] := by
  induction l with
  | nil => rfl
  | cons x xs ih => simp [List.filterMap_cons, diffAt, ih]

/-- classify_difference returns insertion exactly when the character from
the first string is absent. -/
theorem classify_eq_insertion_iff (c1 c2 : Option Nat) :
    classify_difference c1 c2 = DiffType.insertion ↔ c1 = none := by
  cases c1 <;> cases c2 <;> simp [classify_difference]
  all_goals split_ifs <;> simp

/-- classify_difference returns deletion exactly when the first character
is present and the second absent. -/
theorem classify_eq_deletion_iff (c1 c2 : Option Nat) :
    classify_difference c1 c2 = DiffType.deletion ↔ (c1 ≠ none ∧ c2 = none) := by
  cases c1 <;> cases c2 <;> simp [classify_difference]
  all_goals split_ifs <;> simp

/-- Counting a band of indices inside range n. -/
theorem countP_range_band (la lb n : Nat) :
    (List.range n).countP (fun i => decide (la ≤ i ∧ i < lb)) = min lb n - la := by
  induction n with
  | zero => simp
  | succ n ih =>
    rw [List.range_succ, List.countP_append, ih]
    by_cases h : la ≤ n ∧ n < lb
    · simp [List.countP_cons, h]
      omega
    · simp [List.countP_cons, h]
      omega

/-- Looking up a key in a key-indexed map of pairs. -/
theorem lookup_map_pair (f : String → PyStr) (cols : List String) (c : String) :
    ((cols.map (fun x => (x, f x))).lookup c) =
      if c ∈ cols then some (f c) else none := by
  induction cols with
  | nil => simp
  | cons x xs ih =>
    by_cases h : c = x
    · subst h
      simp [List.lookup_cons]
    · have hb : (c == x) = false := beq_eq_false_iff_ne.mpr h
      simp [List.lookup_cons, hb, ih, h]

/-- A lookup misses when the key is not among the pairs' keys. -/
theorem lookup_eq_none_of_not_mem_keys (r : List (String × PyStr)) (c : String)
    (h : c ∉ r.map Prod.fst) : r.lookup c = none := by
  induction r with
  | nil => rfl
  | cons kv xs ih =>
    obtain ⟨k, v⟩ := kv
    simp only [List.map_cons, List.mem_cons] at h
    push_neg at h
    have hb : (c == k) = false := beq_eq_false_iff_ne.mpr h.1
    simp [List.lookup_cons, hb, ih h.2]

/-- Membership in the column union. -/
theorem mem_colUnion (c1 c2 : List String) (c : String) :
    c ∈ colUnion c1 c2 ↔ (c ∈ c1 ∨ c ∈ c2) := by
  simp only [colUnion, List.mem_append, List.mem_filter, decide_eq_true_eq]
  by_cases h : c ∈ c1 <;> tauto

/-- The column union of duplicate-free column lists is duplicate-free. -/
theorem nodup_colUnion (c1 c2 : List String) (h1 : c1.Nodup) (h2 : c2.Nodup) :
    (colUnion c1 c2).Nodup := by
  refine List.Nodup.append h1 (List.Nodup.filter _ h2) ?_
  intro c hc1 hc2
  rw [List.mem_filter, decide_eq_true_eq] at hc2
  exact hc2.2 hc1

/-- Membership in the canonical sorted column order. -/
theorem mem_canonCols (df1 df2 : Frame) (c : String) :
    c ∈ canonCols df1 df2 ↔ (c ∈ df1.cols ∨ c ∈ df2.cols) := by
  rw [canonCols, List.mem_insertionSort]
  exact mem_colUnion _ _ _

/-- The canonical column order is sorted. -/
theorem sorted_canonCols (df1 df2 : Frame) :
    List.Sorted (fun a b : String => a ≤ b) (canonCols df1 df2) :=
  List.sorted_insertionSort _ _

/-- The canonical column order of duplicate-free inputs is duplicate-free. -/
theorem nodup_canonCols (df1 df2 : Frame) (h1 : df1.cols.Nodup)
    (h2 : df2.cols.Nodup) : (canonCols df1 df2).Nodup :=
  ((List.perm_insertionSort _ _).nodup_iff).mpr (nodup_colUnion _ _ h1 h2)

/-- Row count after conforming. -/
theorem conform_rows_length (df : Frame) (cols : List String) (n : Nat)
    (h : df.rows.length ≤ n) : (conform df cols n).rows.length = n := by
  simp [conform]
  omega

/-- Column list after conforming. -/
theorem conform_cols (df : Frame) (cols : List String) (n : Nat) :
    (conform df cols n).cols = cols := rfl

/-- Conforming keeps the value of every original cell whose column is in
the target column list. -/
theorem conform_cell_of_lt (df : Frame) (cols : List String) (n : Nat)
    (i : Nat) (c : String) (hi : i < df.rows.length) (hc : c ∈ cols) :
    (conform df cols n).cell i c = df.cell i c := by
  obtain ⟨r, hr⟩ : ∃ r, df.rows[i]? = some r :=
    ⟨df.rows[i], List.getElem?_eq_getElem hi⟩
  have hlen : i < (df.rows.map (reindexRow cols)).length := by
    simpa using hi
  simp only [Frame.cell, conform, List.getElem?_append_left hlen,
    List.getElem?_map, hr, Option.map_some', Option.some_bind]
  simp only [reindexRow]
  rw [lookup_map_pair (fun x => (r.lookup x).getD []) cols c, if_pos hc]
  rfl

/-- Conforming fills every column absent from a well-formed frame with
the empty string, at every original row index. -/
theorem conform_cell_of_not_mem (df : Frame) (cols : List String) (n : Nat)
    (i : Nat) (c : String) (hwf : Frame.WF df) (hc : c ∉ df.cols)
    (hi : i < df.rows.length) : (conform df cols n).cell i c = [] := by
  obtain ⟨r, hr⟩ : ∃ r, df.rows[i]? = some r :=
    ⟨df.rows[i], List.getElem?_eq_getElem hi⟩
  have hlen : i < (df.rows.map (reindexRow cols)).length := by
    simpa using hi
  simp only [Frame.cell, conform, List.getElem?_append_left hlen,
    List.getElem?_map, hr, Option.map_some', Option.some_bind]
  simp only [reindexRow]
  rw [lookup_map_pair (fun x => (r.lookup x).getD []) cols c]
  by_cases hcc : c ∈ cols
  · rw [if_pos hcc]
    have hkeys : c ∉ r.map Prod.fst := by
      rw [hwf r (List.getElem?_mem hr)]
      exact hc
    rw [lookup_eq_none_of_not_mem_keys r c hkeys]
    rfl
  · rw [if_neg hcc]
    rfl

/-- Every cell of an appended padding row is the empty string. -/
theorem conform_cell_of_ge (df : Frame) (cols : List String) (n : Nat)
    (i : Nat) (c : String) (hi : df.rows.length ≤ i) :
    (conform df cols n).cell i c = [] := by
  have hlen : (df.rows.map (reindexRow cols)).length ≤ i := by
    simpa using hi
  simp only [Frame.cell, conform, List.getElem?_append_right hlen,
    List.length_map, List.getElem?_replicate]
  by_cases hb : i - df.rows.length < n - df.rows.length
  · rw [if_pos hb]
    simp only [Option.some_bind]
    rw [lookup_map_pair (fun _ => ([] : PyStr)) cols c]
    by_cases hcc : c ∈ cols
    · rw [if_pos hcc]; rfl
    · rw [if_neg hcc]; rfl
  · rw [if_neg hb]
    rfl

/-- diffAt records nothing at an index where the characters agree. -/
theorem diffAt_eq_none (printable : Nat → Bool) (a b : PyStr) (i : Nat)
    (h : a[i]? = b[i]?) : diffAt printable a b i = none := by
  simp [diffAt, h]

/-- diffAt records one fully-determined difference at an unequal index. -/
theorem diffAt_of_ne (printable : Nat → Bool) (a b : PyStr) (i : Nat)
    (h : a[i]? ≠ b[i]?) :
    diffAt printable a b i = some
      { position := i
        char1 := a[i]?
        char2 := b[i]?
        char1_info := Option.map (get_char_info printable) a[i]?
        char2_info := Option.map (get_char_info printable) b[i]?
        type := classify_difference a[i]? b[i]? } := by
  simp [diffAt, h]

/-- A present index is below the length; an absent one is at or above it. -/
theorem getElem?_some_lt {l : PyStr} {i : Nat} {a : Nat} (h : l[i]? = some a) :
    i < l.length := by
  rcases List.getElem?_eq_some_iff.mp h with ⟨hlt, _⟩
  exact hlt

/-- Unfolding a successful cellDiffAt: the emitted record's fields. -/
theorem cellDiffAt_eq_some_elim {printable : Nat → Bool} {lower : Nat → Nat}
    {cfg : Config} {g1 g2 : Frame} {row : Nat} {jc : Nat × String}
    {d : CellDifference}
    (h : cellDiffAt printable lower cfg g1 g2 row jc = some d) :
    d.row = row ∧ d.col = jc.1 ∧ d.col_name = jc.2 ∧
    d.original = g1.cell row jc.2 ∧ d.target = g2.cell row jc.2 ∧
    d.unicode_analysis =
      (compare_cells printable lower cfg (g1.cell row jc.2) (g2.cell row jc.2)).2 := by
  simp only [cellDiffAt] at h
  split at h
  · exact absurd h (by simp)
  · injection h with h
    subst h
    exact ⟨rfl, rfl, rfl, rfl, rfl, rfl⟩

/-
Concrete fixtures used by the witness theorems.
-/

/-- A concrete stand-in for str.isprintable: printable exactly on the
visible ASCII range (what CPython reports for ASCII input). -/
def printable0 : Nat → Bool := fun c => decide (32 ≤ c ∧ c ≤ 126)

/-- The difference record produced at position 3 for "abc" vs "abcd". -/
def charDiff0 : CharDiff :=
  { position := 3
    char1 := none
    char2 := some 100
    char1_info := none
    char2_info := some (get_char_info printable0 100)
    type := DiffType.insertion }

/-- A concrete 2x2 frame with columns A, B. -/
def frameA : Frame :=
  { cols := ["A", "B"]
    rows := [[("A", [49]), ("B", [50])], [("A", [51]), ("B", [52])]] }

/-- A concrete 1x2 frame with columns B, C. -/
def frameB : Frame :=
  { cols := ["B", "C"]
    rows := [[("B", [53]), ("C", [54])]] }

/-- A concrete loader that fails exactly on target t2. -/
def load0 : String → Option Frame :=
  fun s => if s = "t2" then none else some frameA

/-
Claim theorems.
-/

/-- C1: _classify_difference decides the kind of a mismatched pair of
possibly-absent characters in the fixed priority: absent-from-A gives
insertion; else absent-from-B gives deletion; else two unequal whitespace
characters give whitespace_substitution; else exactly one whitespace
character gives whitespace_difference; else any code point above 127
gives unicode_difference; else character_substitution.  In particular
U+00A0 against U+0020 is whitespace_substitution, never
unicode_difference. -/
theorem c1_classify_priority (c1 c2 : Option Nat) :
    (c1 = none → classify_difference c1 c2 = DiffType.insertion) ∧
    (c1 ≠ none → c2 = none → classify_difference c1 c2 = DiffType.deletion) ∧
    (∀ a b, c1 = some a → c2 = some b → pyIsSpace a = true → pyIsSpace b = true →
      classify_difference c1 c2 = DiffType.whitespace_substitution) ∧
    (∀ a b, c1 = some a → c2 = some b →
      ¬(pyIsSpace a = true ∧ pyIsSpace b = true) →
      (pyIsSpace a = true ∨ pyIsSpace b = true) →
      classify_difference c1 c2 = DiffType.whitespace_difference) ∧
    (∀ a b, c1 = some a → c2 = some b → pyIsSpace a = false → pyIsSpace b = false →
      (127 < a ∨ 127 < b) →
      classify_difference c1 c2 = DiffType.unicode_difference) ∧
    (∀ a b, c1 = some a → c2 = some b → pyIsSpace a = false → pyIsSpace b = false →
      a ≤ 127 → b ≤ 127 →
      classify_difference c1 c2 = DiffType.character_substitution) ∧
    (classify_difference (some 160) (some 32) = DiffType.whitespace_substitution ∧
      classify_difference (some 160) (some 32) ≠ DiffType.unicode_difference) := by
  refine ⟨?_, ?_, ?_, ?_, ?_, ?_, by decide, by decide⟩
  · rintro rfl
    rfl
  · intro h1 h2
    subst h2
    cases c1 with
    | none => exact absurd rfl h1
    | some a => rfl
  · rintro a b rfl rfl ha hb
    simp [classify_difference, ha, hb]
  · rintro a b rfl rfl hnot hor
    have hand : (pyIsSpace a && pyIsSpace b) = false := by
      rcases Bool.eq_false_or_eq_true (pyIsSpace a) with h | h <;>
        rcases Bool.eq_false_or_eq_true (pyIsSpace b) with h2 | h2 <;>
        simp [h, h2] at hnot ⊢
    have hor2 : (pyIsSpace a || pyIsSpace b) = true := by
      rcases hor with h | h <;> simp [h]
    simp [classify_difference, hand, hor2]
  · rintro a b rfl rfl ha hb hgt
    simp [classify_difference, ha, hb]
    omega
  · rintro a b rfl rfl ha hb hla hlb
    simp [classify_difference, ha, hb]
    omega

/-- Witness for C1: each branch of the priority at a concrete input pair. -/
theorem c1_classify_priority_witness :
    classify_difference none (some 97) = DiffType.insertion ∧
    classify_difference (some 97) none = DiffType.deletion ∧
    classify_difference (some 32) (some 9) = DiffType.whitespace_substitution ∧
    classify_difference (some 32) (some 97) = DiffType.whitespace_difference ∧
    classify_difference (some 200) (some 97) = DiffType.unicode_difference ∧
    classify_difference (some 97) (some 98) = DiffType.character_substitution :=
  ⟨(c1_classify_priority none (some 97)).1 rfl,
   (c1_classify_priority (some 97) none).2.1 (by simp) rfl,
   (c1_classify_priority (some 32) (some 9)).2.2.1 32 9 rfl rfl (by decide) (by decide),
   (c1_classify_priority (some 32) (some 97)).2.2.2.1 32 97 rfl rfl (by decide) (by decide),
   (c1_classify_priority (some 200) (some 97)).2.2.2.2.1 200 97 rfl rfl (by decide)
     (by decide) (by decide),
   (c1_classify_priority (some 97) (some 98)).2.2.2.2.2.1 97 98 rfl rfl (by decide)
     (by decide) (by decide) (by decide)⟩

/-- C9: the diff of any string against itself yields an empty difference
list and reports are_equal = true. -/
theorem c9_diff_self (printable : Nat → Bool) (s : PyStr) :
    (analyze_difference printable s s).differences = [] ∧
    (analyze_difference printable s s).are_equal = true := by
  constructor
  · show find_string_differences printable s s = []
    exact filterMap_diffAt_self printable s _
  · simp [analyze_difference]

/-- C2: the string diff compares fixed positions over
range(max(len(a), len(b))), taking each character when in range and
absent otherwise, and records one CharDifference exactly at each index
where the two possibly-absent characters are unequal; for "abc" vs
"abcd" this yields exactly one difference, at position 3, of kind
insertion. -/
theorem c2_positional_diff (printable : Nat → Bool) (a b : PyStr) :
    ((find_string_differences printable a b).map (fun d => d.position) =
      (List.range (max (List.length a) (List.length b))).filter
        (fun i => decide (a[i]? ≠ b[i]?))) ∧
    (∀ d ∈ find_string_differences printable a b,
      d.char1 = a[d.position]? ∧ d.char2 = b[d.position]? ∧
      d.char1 ≠ d.char2 ∧ d.type = classify_difference d.char1 d.char2) ∧
    ((find_string_differences printable [97, 98, 99] [97, 98, 99, 100]).map
      (fun d => (d.position, d.type)) = [(3, DiffType.insertion)]) := by
  refine ⟨find_string_differences_positions printable a b, ?_, rfl⟩
  intro d hd
  rw [find_string_differences, List.mem_filterMap] at hd
  obtain ⟨i, _, hi⟩ := hd
  obtain ⟨hpos, h1, h2, hne, ht⟩ := diffAt_eq_some_elim hi
  subst hpos
  exact ⟨h1, h2, hne, by rw [ht, h1, h2]⟩

/-- Witness for C2: the single record of the diff of "abc" against
"abcd" satisfies the per-record field equations. -/
theorem c2_positional_diff_witness :
    charDiff0.char1 = ([97, 98, 99] : PyStr)[charDiff0.position]? ∧
    charDiff0.char2 = ([97, 98, 99, 100] : PyStr)[charDiff0.position]? ∧
    charDiff0.char1 ≠ charDiff0.char2 ∧
    charDiff0.type = classify_difference charDiff0.char1 charDiff0.char2 :=
  (c2_positional_diff printable0 [97, 98, 99] [97, 98, 99, 100]).2.1 charDiff0
    (by decide)

/-- The insertion test on a diff record, pushed through diffAt: an
insertion is recorded at i exactly when A has ended and B has not. -/
theorem diffAt_insertion_pred (printable : Nat → Bool) (a b : PyStr) (i : Nat) :
    (Option.map (fun d => decide (d.type = DiffType.insertion))
        (diffAt printable a b i)).getD false =
      decide (List.length a ≤ i ∧ i < List.length b) := by
  by_cases h : a[i]? = b[i]?
  · rw [diffAt_eq_none printable a b i h, Option.map_none', Option.getD_none]
    symm
    simp only [decide_eq_false_iff_not, not_and, not_lt]
    intro hla
    have han : a[i]? = none := List.getElem?_eq_none_iff.mpr hla
    exact List.getElem?_eq_none_iff.mp (by rw [← h]; exact han)
  · rw [diffAt_of_ne printable a b i h, Option.map_some', Option.getD_some]
    rw [decide_eq_decide, classify_eq_insertion_iff]
    constructor
    · intro ha
      cases hb : b[i]? with
      | none => exact absurd (ha.trans hb.symm) h
      | some x => exact ⟨List.getElem?_eq_none_iff.mp ha, getElem?_some_lt hb⟩
    · rintro ⟨hla, _⟩
      exact List.getElem?_eq_none_iff.mpr hla

/-- The deletion test on a diff record, pushed through diffAt: a
deletion is recorded at i exactly when B has ended and A has not. -/
theorem diffAt_deletion_pred (printable : Nat → Bool) (a b : PyStr) (i : Nat) :
    (Option.map (fun d => decide (d.type = DiffType.deletion))
        (diffAt printable a b i)).getD false =
      decide (List.length b ≤ i ∧ i < List.length a) := by
  by_cases h : a[i]? = b[i]?
  · rw [diffAt_eq_none printable a b i h, Option.map_none', Option.getD_none]
    symm
    simp only [decide_eq_false_iff_not, not_and, not_lt]
    intro hlb
    have hbn : b[i]? = none := List.getElem?_eq_none_iff.mpr hlb
    exact List.getElem?_eq_none_iff.mp (h.trans hbn)
  · rw [diffAt_of_ne printable a b i h, Option.map_some', Option.getD_some]
    rw [decide_eq_decide, classify_eq_deletion_iff]
    constructor
    · rintro ⟨hane, hbn⟩
      refine ⟨List.getElem?_eq_none_iff.mp hbn, ?_⟩
      cases ha : a[i]? with
      | none => exact absurd ha hane
      | some x => exact getElem?_some_lt ha
    · rintro ⟨hlb, hia⟩
      refine ⟨?_, List.getElem?_eq_none_iff.mpr hlb⟩
      intro han
      have := List.getElem?_eq_none_iff.mp han
      omega

/-- C10: the diff report contains exactly max(0, len(b) - len(a))
insertions and exactly max(0, len(a) - len(b)) deletions (as truncated
Nat subtractions); every insertion or deletion sits at a position at or
beyond min(len(a), len(b)); and the recorded positions are strictly
increasing and below max(len(a), len(b)). -/
theorem c10_insertion_deletion_shape (printable : Nat → Bool) (a b : PyStr) :
    ((find_string_differences printable a b).countP
        (fun d => decide (d.type = DiffType.insertion)) =
      List.length b - List.length a) ∧
    ((find_string_differences printable a b).countP
        (fun d => decide (d.type = DiffType.deletion)) =
      List.length a - List.length b) ∧
    (∀ d ∈ find_string_differences printable a b,
      (d.type = DiffType.insertion ∨ d.type = DiffType.deletion) →
      min (List.length a) (List.length b) ≤ d.position) ∧
    (List.Pairwise (fun p q => p < q)
      ((find_string_differences printable a b).map (fun d => d.position))) ∧
    (∀ d ∈ find_string_differences printable a b,
      d.position < max (List.length a) (List.length b)) := by
  refine ⟨?_, ?_, ?_, ?_, ?_⟩
  · rw [find_string_differences, List.countP_filterMap]
    rw [List.countP_congr
      (fun i _ => by rw [diffAt_insertion_pred printable a b i])]
    rw [countP_range_band]
    omega
  · rw [find_string_differences, List.countP_filterMap]
    rw [List.countP_congr
      (fun i _ => by rw [diffAt_deletion_pred printable a b i])]
    rw [countP_range_band]
    omega
  · intro d hd htype
    rw [find_string_differences, List.mem_filterMap] at hd
    obtain ⟨i, hmem, hi⟩ := hd
    obtain ⟨hpos, h1, h2, hne, ht⟩ := diffAt_eq_some_elim hi
    subst hpos
    rcases htype with hins | hdel
    · have hcl := ht.symm.trans hins
      rw [classify_eq_insertion_iff] at hcl
      have := List.getElem?_eq_none_iff.mp hcl
      omega
    · have hcl := ht.symm.trans hdel
      rw [classify_eq_deletion_iff] at hcl
      have := List.getElem?_eq_none_iff.mp hcl.2
      omega
  · rw [find_string_differences_positions]
    exact List.Pairwise.sublist (List.filter_sublist _) (List.pairwise_lt_range _)
  · intro d hd
    rw [find_string_differences, List.mem_filterMap] at hd
    obtain ⟨i, hmem, hi⟩ := hd
    rw [(diffAt_eq_some_elim hi).1]
    exact List.mem_range.mp hmem

/-- Witness for C10: the position bounds hold for the concrete insertion
record of the diff of "abc" against "abcd". -/
theorem c10_insertion_deletion_shape_witness :
    min (List.length ([97, 98, 99] : PyStr))
        (List.length ([97, 98, 99, 100] : PyStr)) ≤ charDiff0.position ∧
    charDiff0.position < max (List.length ([97, 98, 99] : PyStr))
        (List.length ([97, 98, 99, 100] : PyStr)) :=
  ⟨(c10_insertion_deletion_shape printable0 [97, 98, 99] [97, 98, 99, 100]).2.2.1
      charDiff0 (by decide) (by decide),
   (c10_insertion_deletion_shape printable0 [97, 98, 99] [97, 98, 99, 100]).2.2.2.2
      charDiff0 (by decide)⟩

/-- C7 counterexample: the curated table has no entry for U+2000
(code point 8192), although the claim asserts coverage of the full
range U+2000 through U+200D. -/
theorem c7_counterexample_u2000 : special_chars.lookup 8192 = none := by
  rfl

/-- C7 (amended): the curated table contains a nonempty short
human-readable name for every code point among: U+00A0, the range
U+2009 through U+200D, U+2028, U+2029, U+202F, U+205F, U+3000, the
ASCII control whitespace characters tab/newline/carriage-return/
form-feed/vertical-tab, the hyphen/dash variants U+2010 through
U+2015, and the quotation marks U+2018 through U+201F. -/
theorem c7_curated_table_amended :
    (([160] ++ List.range' 8201 5 ++
      [8232, 8233, 8239, 8287, 12288, 9, 10, 13, 12, 11] ++
      List.range' 8208 6 ++ List.range' 8216 8).all
      (fun c => decide (((special_chars.lookup c).getD "") ≠ ""))) = true := by
  decide

/-- C8: get_char_info sets is_invisible exactly when the character fails
the is-printable test or appears in the curated table; in particular an
en-dash (U+2013), even when the platform reports it printable, is still
flagged invisible. -/
theorem c8_invisible_flag (printable : Nat → Bool) (c : Nat) :
    ((get_char_info printable c).is_invisible =
      (!printable c || inSpecialChars c)) ∧
    (printable 8211 = true →
      (get_char_info printable 8211).is_printable = true ∧
      (get_char_info printable 8211).is_invisible = true) := by
  refine ⟨rfl, fun h => ⟨h, ?_⟩⟩
  show (!printable 8211 || inSpecialChars 8211) = true
  rw [h]
  rfl

/-- Witness for C8: with a printability test reporting the en-dash
printable, it is still flagged invisible. -/
theorem c8_invisible_flag_witness :
    (get_char_info (fun _ => true) 8211).is_printable = true ∧
    (get_char_info (fun _ => true) 8211).is_invisible = true :=
  (c8_invisible_flag (fun _ => true) 8211).2 rfl

/-- C3: normalize_dataframes returns two grids of identical shape whose
common column list is the lexicographically sorted union of the input
column sets; columns absent from an input are filled with the empty
string in every original row; the row count of both outputs is
max(rowsA, rowsB); existing rows keep their values, and the appended
padding rows are entirely empty strings. -/
theorem c3_align (df1 df2 : Frame) (hn1 : df1.cols.Nodup) (hn2 : df2.cols.Nodup)
    (hw1 : Frame.WF df1) (hw2 : Frame.WF df2) :
    ((normalize_dataframes df1 df2).1.cols = (normalize_dataframes df1 df2).2.cols) ∧
    List.Sorted (fun a b : String => a ≤ b) (normalize_dataframes df1 df2).1.cols ∧
    (normalize_dataframes df1 df2).1.cols.Nodup ∧
    (∀ c, c ∈ (normalize_dataframes df1 df2).1.cols ↔ (c ∈ df1.cols ∨ c ∈ df2.cols)) ∧
    ((normalize_dataframes df1 df2).1.rows.length =
      max df1.rows.length df2.rows.length) ∧
    ((normalize_dataframes df1 df2).2.rows.length =
      max df1.rows.length df2.rows.length) ∧
    (∀ i c, i < df1.rows.length → c ∈ df1.cols →
      (normalize_dataframes df1 df2).1.cell i c = df1.cell i c) ∧
    (∀ i c, i < df2.rows.length → c ∈ df2.cols →
      (normalize_dataframes df1 df2).2.cell i c = df2.cell i c) ∧
    (∀ i c, i < df1.rows.length → c ∉ df1.cols →
      (normalize_dataframes df1 df2).1.cell i c = []) ∧
    (∀ i c, i < df2.rows.length → c ∉ df2.cols →
      (normalize_dataframes df1 df2).2.cell i c = []) ∧
    (∀ i c, df1.rows.length ≤ i → (normalize_dataframes df1 df2).1.cell i c = []) ∧
    (∀ i c, df2.rows.length ≤ i → (normalize_dataframes df1 df2).2.cell i c = []) := by
  refine ⟨rfl, sorted_canonCols df1 df2, nodup_canonCols df1 df2 hn1 hn2,
    mem_canonCols df1 df2, conform_rows_length df1 _ _ (Nat.le_max_left _ _),
    conform_rows_length df2 _ _ (Nat.le_max_right _ _), ?_, ?_, ?_, ?_, ?_, ?_⟩
  · intro i c hi hc
    exact conform_cell_of_lt df1 _ _ i c hi
      ((mem_canonCols df1 df2 c).mpr (Or.inl hc))
  · intro i c hi hc
    exact conform_cell_of_lt df2 _ _ i c hi
      ((mem_canonCols df1 df2 c).mpr (Or.inr hc))
  · intro i c hi hc
    exact conform_cell_of_not_mem df1 _ _ i c hw1 hc hi
  · intro i c hi hc
    exact conform_cell_of_not_mem df2 _ _ i c hw2 hc hi
  · intro i c hi
    exact conform_cell_of_ge df1 _ _ i c hi
  · intro i c hi
    exact conform_cell_of_ge df2 _ _ i c hi

/-- Witness for C3: alignment of the concrete frames with columns A,B
and B,C: identical column lists, max row count, the column absent from
the second grid filled empty, and the appended row empty. -/
theorem c3_align_witness :
    ((normalize_dataframes frameA frameB).1.cols =
      (normalize_dataframes frameA frameB).2.cols) ∧
    ((normalize_dataframes frameA frameB).1.rows.length =
      max frameA.rows.length frameB.rows.length) ∧
    (normalize_dataframes frameA frameB).2.cell 0 "A" = [] ∧
    (normalize_dataframes frameA frameB).2.cell 1 "C" = [] := by
  have h := c3_align frameA frameB (by decide) (by decide)
    (by intro r hr; fin_cases hr <;> rfl) (by intro r hr; fin_cases hr; rfl)
  exact ⟨h.1, h.2.2.2.2.1,
    h.2.2.2.2.2.2.2.2.2.1 0 "A" (by decide) (by decide),
    h.2.2.2.2.2.2.2.2.2.2.2 1 "C" (by decide)⟩

/-- A concrete 1x1 frame holding "a". -/
def frameC : Frame := { cols := ["v"], rows := [[("v", [97])]] }

/-- A concrete 1x1 frame holding "b". -/
def frameD : Frame := { cols := ["v"], rows := [[("v", [98])]] }

/-- The single difference record of comparing frameC to frameD. -/
def cellDiff0 : CellDifference :=
  { row := 0
    col := 0
    col_name := "v"
    original := [97]
    target := [98]
    char_diff_positions := [0]
    unicode_analysis := some (analyze_difference printable0 [97] [98]) }

/-- C4: with whitespace normalization enabled the equality decision is
taken on the trimmed values ("foo " equals "foo" and yields no record),
the analysis handed to the string-diff engine runs on the trimmed
values, and every emitted per-cell record carries the original,
untrimmed cell values of both aligned grids. -/
theorem c4_whitespace_normalization (printable : Nat → Bool) (lower : Nat → Nat)
    (cfg : Config) (df1 df2 : Frame) (v1 v2 : PyStr) :
    ((compare_cells printable lower ⟨false, true⟩ v1 v2).1 = true ↔
      pyStrip v1 = pyStrip v2) ∧
    (compare_cells printable lower ⟨false, true⟩ [102, 111, 111, 32] [102, 111, 111] =
      (true, none)) ∧
    ((compare_cells printable lower ⟨false, true⟩ v1 v2).2 =
      if pyStrip v1 = pyStrip v2 then none
      else some (analyze_difference printable (pyStrip v1) (pyStrip v2))) ∧
    (∀ d ∈ (compare_frames printable lower cfg df1 df2).differences,
      d.original = (normalize_dataframes df1 df2).1.cell d.row d.col_name ∧
      d.target = (normalize_dataframes df1 df2).2.cell d.row d.col_name) := by
  refine ⟨?_, rfl, ?_, ?_⟩
  · by_cases h : pyStrip v1 = pyStrip v2 <;> simp [compare_cells, h]
  · by_cases h : pyStrip v1 = pyStrip v2 <;> simp [compare_cells, h]
  · intro d hd
    have hd' : d ∈ cellDiffs printable lower cfg (normalize_dataframes df1 df2).1
        (normalize_dataframes df1 df2).2 := hd
    simp only [cellDiffs] at hd'
    rw [List.mem_flatMap] at hd'
    obtain ⟨row, _, hrow⟩ := hd'
    rw [List.mem_filterMap] at hrow
    obtain ⟨jc, _, hjc⟩ := hrow
    obtain ⟨hr, _, hcname, horig, htarg, _⟩ := cellDiffAt_eq_some_elim hjc
    constructor
    · rw [horig, hr, hcname]
    · rw [htarg, hr, hcname]

/-- Witness for C4: the single record of comparing the two 1x1 frames
carries the original values of both sides. -/
theorem c4_whitespace_normalization_witness :
    cellDiff0.original =
      (normalize_dataframes frameC frameD).1.cell cellDiff0.row cellDiff0.col_name ∧
    cellDiff0.target =
      (normalize_dataframes frameC frameD).2.cell cellDiff0.row cellDiff0.col_name :=
  (c4_whitespace_normalization printable0 id ⟨false, false⟩ frameC frameD [] []).2.2.2
    cellDiff0 (by decide)

/-- C5: the similarity ratio is identical / total with total = aligned
row count times aligned column count and identical = total - different;
a total of 0 yields similarity 0 rather than a division error or 100%. -/
theorem c5_similarity (printable : Nat → Bool) (lower : Nat → Nat) (cfg : Config)
    (df1 df2 : Frame) :
    ((compare_frames printable lower cfg df1 df2).total_cells =
      (normalize_dataframes df1 df2).1.rows.length *
        (normalize_dataframes df1 df2).1.cols.length) ∧
    ((compare_frames printable lower cfg df1 df2).identical_cells =
      (compare_frames printable lower cfg df1 df2).total_cells -
        (compare_frames printable lower cfg df1 df2).different_cells) ∧
    (0 < (compare_frames printable lower cfg df1 df2).total_cells →
      (compare_frames printable lower cfg df1 df2).similarity =
        ((compare_frames printable lower cfg df1 df2).identical_cells : ℚ) /
          ((compare_frames printable lower cfg df1 df2).total_cells : ℚ)) ∧
    ((compare_frames printable lower cfg df1 df2).total_cells = 0 →
      (compare_frames printable lower cfg df1 df2).similarity = 0) ∧
    ((compare_frames printable lower cfg ⟨[], []⟩ ⟨[], []⟩).total_cells = 0 ∧
      (compare_frames printable lower cfg ⟨[], []⟩ ⟨[], []⟩).similarity = 0) := by
  refine ⟨rfl, rfl, ?_, ?_, rfl, rfl⟩
  · intro h
    simp only [compare_frames] at h ⊢
    rw [if_pos h]
  · intro h
    simp only [compare_frames] at h ⊢
    rw [if_neg (by omega)]

/-- Witness for C5: a nonempty comparison divides, the empty one
reports 0. -/
theorem c5_similarity_witness :
    ((compare_frames printable0 id ⟨false, false⟩ frameC frameD).similarity =
      ((compare_frames printable0 id ⟨false, false⟩ frameC frameD).identical_cells : ℚ) /
        ((compare_frames printable0 id ⟨false, false⟩ frameC frameD).total_cells : ℚ)) ∧
    (compare_frames printable0 id ⟨false, false⟩ ⟨[], []⟩ ⟨[], []⟩).similarity = 0 :=
  ⟨(c5_similarity printable0 id ⟨false, false⟩ frameC frameD).2.2.1 (by decide),
   (c5_similarity printable0 id ⟨false, false⟩ ⟨[], []⟩ ⟨[], []⟩).2.2.2.1 rfl⟩

/-- C6: batch_compare maps each target, in input order, to the outcome
of an independent comparison against the same base; a target whose load
fails is recorded as None without aborting the rest; concretely, three
targets with the second failing give a 3-entry mapping with the second
None and the others populated. -/
theorem c6_batch (printable : Nat → Bool) (lower : Nat → Nat) (cfg : Config)
    (load : String → Option Frame) (base : String) (targets : List String) :
    ((batch_compare printable lower cfg load base targets).map Prod.fst = targets) ∧
    ((batch_compare printable lower cfg load base targets).length =
      targets.length) ∧
    (∀ i : Nat, (batch_compare printable lower cfg load base targets)[i]? =
      (targets[i]?).map
        (fun t => (t, compare_files_opt printable lower cfg load base t))) ∧
    (∀ t ∈ targets, load t = none →
      (t, (none : Option ComparisonResult)) ∈
        batch_compare printable lower cfg load base targets) ∧
    ((batch_compare printable0 id ⟨false, false⟩ load0 "base" ["t1", "t2", "t3"]).map
      (fun p => (p.1, p.2.isSome)) = [("t1", true), ("t2", false), ("t3", true)]) := by
  refine ⟨?_, ?_, ?_, ?_, rfl⟩
  · simp only [batch_compare, List.map_map]
    exact List.map_id targets
  · simp [batch_compare]
  · intro i
    simp [batch_compare, List.getElem?_map]
  · intro t ht hnone
    have hopt : compare_files_opt printable lower cfg load base t = none := by
      simp only [compare_files_opt]
      cases hb : load base with
      | none => rfl
      | some df1 => simp [hnone]
    rw [batch_compare, List.mem_map]
    exact ⟨t, ht, by rw [hopt]⟩

/-- Witness for C6: in the concrete three-target batch with t2 failing,
entry 1 is t2 mapped to the (failing) comparison outcome, and (t2, None)
is in the result mapping. -/
theorem c6_batch_witness :
    ((batch_compare printable0 id ⟨false, false⟩ load0 "base" ["t1", "t2", "t3"])[1]? =
      ((["t1", "t2", "t3"] : List String)[1]?).map
        (fun t => (t, compare_files_opt printable0 id ⟨false, false⟩ load0 "base" t))) ∧
    ("t2", (none : Option ComparisonResult)) ∈
      batch_compare printable0 id ⟨false, false⟩ load0 "base" ["t1", "t2", "t3"] :=
  ⟨(c6_batch printable0 id ⟨false, false⟩ load0 "base" ["t1", "t2", "t3"]).2.2.1 1,
   (c6_batch printable0 id ⟨false, false⟩ load0 "base" ["t1", "t2", "t3"]).2.2.2.1
      "t2" (by decide) (by decide)⟩
